import Mathlib

/-!
Verification development for the AtlasQ lookup-to-operator compiler
(`atlasq/queryset/transform.py`).  The Python dictionaries and values are
shallowly embedded as the mutual inductive type `Val`; each method of
`AtlasTransform` becomes a Lean function `atlas_*` over `Val`, with Python
exceptions modelled by the `Err` sum in an `Except` monad.
-/

mutual
/-- A Python value as used by the compiler: query values (bool, int, float,
str, ObjectId, datetime, None, list, dict) and the JSON-like operator
fragments the compiler builds (dicts with ordered entries). -/
inductive Val where
  | vNull : Val
  | vBool (b : Bool) : Val
  | vInt (n : Int) : Val
  | vFloat (q : Rat) : Val
  | vStr (s : String) : Val
  | vOid (hex : String) : Val
  | vDatetime (sec : Int) (usec : Nat) : Val
  | vList (xs : ValList) : Val
  | vDict (es : ValDict) : Val
  deriving DecidableEq, Repr

/-- List of values (spine of a Python list). -/
inductive ValList where
  | nil : ValList
  | cons (hd : Val) (tl : ValList) : ValList
  deriving DecidableEq, Repr

/-- Ordered key-value entries of a Python dict (insertion order preserved). -/
inductive ValDict where
  | nil : ValDict
  | cons (key : String) (val : Val) (tl : ValDict) : ValDict
  deriving DecidableEq, Repr
end

def ValList.ofList : List Val → ValList
  | [] => .nil
  | v :: vs => .cons v (ValList.ofList vs)

def ValList.toList : ValList → List Val
  | .nil => []
  | .cons v vs => v :: vs.toList

def ValList.append : ValList → ValList → ValList
  | .nil, ys => ys
  | .cons x xs, ys => .cons x (xs.append ys)

def ValDict.ofList : List (String × Val) → ValDict
  | [] => .nil
  | (k, v) :: es => .cons k v (ValDict.ofList es)

def ValDict.toList : ValDict → List (String × Val)
  | .nil => []
  | .cons k v es => (k, v) :: es.toList

/-- Python `d[k]` / `k in d`: first entry with the given key. -/
def ValDict.lookup : ValDict → String → Option Val
  | .nil, _ => none
  | .cons k v es, key => if k = key then some v else es.lookup key

/-- Replace the value stored at an existing key, preserving entry order. -/
def ValDict.set : ValDict → String → Val → ValDict
  | .nil, _, _ => .nil
  | .cons k v es, key, w => if k = key then .cons k w es else .cons k v (es.set key w)

/-- Python `d.setdefault(k, default)` when the key is absent: the new entry
goes at the end of the dict. -/
def ValDict.pushEnd : ValDict → String → Val → ValDict
  | .nil, k, v => .cons k v .nil
  | .cons k v es, key, w => .cons k v (es.pushEnd key w)

/-- Shorthand dict constructor from a Lean list literal. -/
def Val.dict (es : List (String × Val)) : Val := .vDict (ValDict.ofList es)

/-- Shorthand list constructor from a Lean list literal. -/
def Val.list (xs : List Val) : Val := .vList (ValList.ofList xs)

/-- Dict lookup lifted to `Val` (none when the value is not a dict). -/
def Val.lookup (v : Val) (key : String) : Option Val :=
  match v with
  | .vDict es => es.lookup key
  | _ => none

/-- Python truthiness (`bool(value)`), used by `if not value:` guards. -/
def Val.truthy : Val → Bool
  | .vNull => false
  | .vBool b => b
  | .vInt n => n ≠ 0
  | .vFloat q => q ≠ 0
  | .vStr s => s ≠ ""
  | .vOid _ => true
  | .vDatetime _ _ => true
  | .vList xs => xs ≠ .nil
  | .vDict es => es ≠ .nil

/-- Python runtime classes relevant to the compiler. -/
inductive PyClass where
  | boolC | intC | floatC | strC | oidC | datetimeC | noneC | listC | dictC
  deriving DecidableEq, Repr

def Val.pyClass : Val → PyClass
  | .vNull => .noneC
  | .vBool _ => .boolC
  | .vInt _ => .intC
  | .vFloat _ => .floatC
  | .vStr _ => .strC
  | .vOid _ => .oidC
  | .vDatetime _ _ => .datetimeC
  | .vList _ => .listC
  | .vDict _ => .dictC

/-- `isinstance(x, C)` for a single class, honouring `bool` being a subclass
of `int` in Python. -/
def Val.isinstanceOf (x : Val) (c : PyClass) : Bool :=
  match c with
  | .intC => match x with | .vInt _ => true | .vBool _ => true | _ => false
  | .boolC => match x with | .vBool _ => true | _ => false
  | .floatC => match x with | .vFloat _ => true | _ => false
  | .strC => match x with | .vStr _ => true | _ => false
  | .oidC => match x with | .vOid _ => true | _ => false
  | .datetimeC => match x with | .vDatetime _ _ => true | _ => false
  | .noneC => match x with | .vNull => true | _ => false
  | .listC => match x with | .vList _ => true | _ => false
  | .dictC => match x with | .vDict _ => true | _ => false

/-- `isinstance(value, AtlasTransform.equals_type_supported)`, i.e.
`(bool, ObjectId, int, datetime.datetime)`. -/
def equals_type_supported (v : Val) : Bool :=
  match v with
  | .vBool _ => true
  | .vOid _ => true
  | .vInt _ => true
  | .vDatetime _ _ => true
  | _ => false

/-- Modelled from the spec: validity of a `bson.ObjectId` string argument
(the `bson` library is outside the repository); per the spec a valid
identifier string is 24 hexadecimal characters. -/
def is_hex_digit (c : Char) : Bool :=
  c.isDigit || ('a' ≤ c && c ≤ 'f') || ('A' ≤ c && c ≤ 'F')

def is_valid_object_id (s : String) : Bool :=
  s.length = 24 && s.toList.all is_hex_digit

/-- Python exception classes raised by the compiler.  The spec's error kinds
map onto these: InvalidFieldValue is `AtlasFieldError`, UnsupportedOperator is
`NotImplementedError`, IndexFieldError is `AtlasIndexFieldError`, and
IdentifierCastError covers the `bson.errors.InvalidId` / `TypeError` raised by
the identifier cast. -/
inductive Err where
  | atlasFieldError (msg : String)
  | atlasIndexFieldError (msg : String)
  | notImplementedError (msg : String)
  | typeError (msg : String)
  | invalidIdError (msg : String)
  | indexError (msg : String)
  | attributeError (msg : String)
  | keyError (msg : String)
  | assertionError (msg : String)
  deriving DecidableEq, Repr

/-- Modelled from the spec: the index catalog view (`atlasq.queryset.index`,
not under `src/`), the read-only external collaborator of §3/§6 of the spec:
an `ensured` flag, the index name, a path-to-type query, a path-is-indexed
query, and the set of indexed fields (used for the wildcard check). -/
structure AtlasIndex where
  ensured : Bool
  index : String
  get_type_from_keyword : String → String
  ensure_keyword_is_indexed : String → Bool
  indexed_fields : List String

/-- Modelled from the spec: `AtlasIndexType.EMBEDDED_DOCUMENT.value` from
`atlasq.queryset.index` (not under `src/`); the type tag the catalog reports
for embedded-document paths. -/
def embedded_document_type : String := "embeddedDocument"

/-! Keyword tables of `AtlasTransform` (class attributes in the source). -/

def id_keywords : List String := ["pk", "id", "_id"]

def keywords : List String :=
  ["ne", "lt", "gt", "lte", "gte", "in", "nin", "all", "size", "exists",
   "exact", "iexact", "contains", "icontains", "startswith", "istartswith",
   "iendswith", "endswith", "iwholeword", "wholeword", "not", "mod", "regex",
   "iregex", "match", "is", "type"]

def type_keywords : List String := ["type"]
def negative_keywords : List String := ["ne", "nin", "not"]
def exists_keywords : List String := ["exists"]
def range_keywords : List String := ["gt", "gte", "lt", "lte"]
def equals_keywords : List String := []
def startswith_keywords : List String := ["startswith", "istartswith"]
def endswith_keywords : List String := ["endswith", "iendswith"]
def text_keywords : List String :=
  ["iwholeword", "wholeword", "exact", "iexact", "eq", "contains", "icontains"]
def all_keywords : List String := ["all"]
def regex_keywords : List String := ["regex", "iregex"]
def size_keywords : List String := ["size"]
def not_converted : List String := ["mod", "match"]

/-- `re.escape`: the set of characters Python escapes (CPython's
`_special_chars_map`). -/
def re_special_chars : List Char :=
  ['(', ')', '[', ']', '\x7b', '\x7d', '?', '*', '+', '-', '|', '^', '$',
   '\\', '.', '&', '~', '#', ' ', '\t', '\n', '\r', '\x0b', '\x0c']

def re_escape_char (c : Char) : List Char :=
  if re_special_chars.contains c then ['\\', c] else [c]

/-- `re.escape(s)` for a string. -/
def re_escape (s : String) : String :=
  String.mk ((s.toList.map re_escape_char).flatten)

def join_dot (parts : List String) : String := String.intercalate "." parts

/-- Python `key.split("__")`: split on the leftmost, non-overlapping
occurrences of the two-character separator (structural recursion so that the
kernel can evaluate it). -/
def py_split_dunder_aux (cur : List Char) : List Char → List (List Char)
  | [] => [cur.reverse]
  | '_' :: '_' :: rest => cur.reverse :: py_split_dunder_aux [] rest
  | c :: rest => py_split_dunder_aux (c :: cur) rest

def py_split_dunder (s : String) : List String :=
  (py_split_dunder_aux [] s.toList).map String.mk

/-- Python `path.split(".")`. -/
def py_split_dot_chars : List Char → List (List Char)
  | [] => [[]]
  | c :: cs =>
      let r := py_split_dot_chars cs
      if c = '.' then [] :: r
      else
        match r with
        | [] => [[c]]
        | g :: gs => (c :: g) :: gs

def py_split_dot (s : String) : List String :=
  (py_split_dot_chars s.toList).map String.mk

/-! The operator builders of `AtlasTransform`, one per source method. -/

/-- `AtlasTransform._type`. -/
def atlas_type (path : String) (value : Val) : Val :=
  Val.dict [("$match", Val.dict [(path, Val.dict [("$type", value)])])]

/-- `AtlasTransform._regex`. -/
def atlas_regex (path : String) (value : Val) : Val :=
  Val.dict [("regex", Val.dict [("query", value), ("path", .vStr path)])]

/-- `AtlasTransform._embedded_document`. -/
def atlas_embedded_document (path : String) (content : Val) (positive : Bool) : Val :=
  Val.dict [("embeddedDocument", Val.dict
    [("path", .vStr path),
     ("operator", Val.dict [("compound", Val.dict
       [(if positive then "must" else "mustNot", Val.list [content])])])])]

/-- `AtlasTransform._convert_to_embedded_document`: recursively wrap an
operator in one scoping clause per embedded-document path prefix. -/
def atlas_convert_to_embedded_document (idx : AtlasIndex) :
    List String → Val → Bool → String → Val
  | [], oper, _, _ => oper
  | element :: rest, oper, positive, start =>
      let sub_path := if start = "" then element else start ++ "." ++ element
      if ¬ idx.ensured then oper
      else if idx.get_type_from_keyword sub_path ≠ embedded_document_type then oper
      else if rest = [] then oper
      else
        let new_operator := atlas_convert_to_embedded_document idx rest oper positive sub_path
        atlas_embedded_document sub_path new_operator
          (if oper ≠ new_operator then true else positive)

/-- `AtlasTransform._exists`. -/
def atlas_exists (path : String) : Val :=
  Val.dict [("exists", Val.dict [("path", .vStr path)])]

/-- `AtlasTransform._range`: value must be a datetime (truncated to whole
seconds) or an int (a Python bool passes the `isinstance(value, int)` check). -/
def atlas_range (path : String) (value : Val) (kws : List String) : Except Err Val :=
  match kws.find? (fun k => ¬ range_keywords.contains k) with
  | some k =>
      .error (.atlasFieldError s!"Range search for {path} must be range keywords, not {k}")
  | none =>
      match value with
      | .vDatetime sec _ =>
          .ok (Val.dict [("range", .vDict (ValDict.ofList
            (("path", Val.vStr path) :: kws.map (fun k => (k, Val.vDatetime sec 0)))))])
      | .vInt _ =>
          .ok (Val.dict [("range", .vDict (ValDict.ofList
            (("path", Val.vStr path) :: kws.map (fun k => (k, value)))))])
      | .vBool _ =>
          .ok (Val.dict [("range", .vDict (ValDict.ofList
            (("path", Val.vStr path) :: kws.map (fun k => (k, value)))))])
      | _ =>
          .error (.atlasFieldError
            s!"Range search for {path} must have a value of datetime or integer")

/-- Error-propagating element-wise map (the `for` loops that build one
sub-fragment per element in the source). -/
def except_map_vals (f : Val → Except Err Val) : List Val → Except Err (List Val)
  | [] => .ok []
  | v :: vs =>
      match f v with
      | .error e => .error e
      | .ok y =>
          match except_map_vals f vs with
          | .error e => .error e
          | .ok ys => .ok (y :: ys)

/-- `AtlasTransform._single_equals`. -/
def atlas_single_equals (path : String) (value : Val) : Except Err Val :=
  if ¬ equals_type_supported value then
    .error (.atlasFieldError
      s!"Text search for equals on path={path} cannot be this value, must be ObjectId or bool")
  else
    .ok (Val.dict [("equals", Val.dict [("path", .vStr path), ("value", value)])])

/-- `AtlasTransform._equals`. -/
def atlas_equals (path : String) (value : Val) : Except Err Val :=
  match value with
  | .vList xs =>
      match xs.toList with
      | [] => .error (.atlasFieldError s!"Text search for equals on path={path} cannot be empty")
      | values =>
          match except_map_vals (atlas_single_equals path) values with
          | .error e => .error e
          | .ok clauses =>
              .ok (Val.dict [("compound", Val.dict
                [("should", Val.list clauses), ("minimumShouldMatch", .vInt 1)])])
  | _ => atlas_single_equals path value

/-- `AtlasTransform._text`: falsy values are rejected; when the index has a
wildcard field the literal path is replaced by a wildcard-path marker. -/
def atlas_text (idx : AtlasIndex) (path : String) (value : Val) : Except Err Val :=
  if ¬ value.truthy then
    .error (.atlasFieldError s!"Text search for {path} cannot be this value")
  else
    let path_val : Val :=
      if idx.indexed_fields.contains "*" then Val.dict [("wildcard", .vStr "*")]
      else .vStr path
    .ok (Val.dict [("text", Val.dict [("query", value), ("path", path_val)])])

/-- `AtlasTransform._startswith`: `re.escape(value)` requires a string (on any
other type Python fails in `pattern.translate`). -/
def atlas_startswith (path : String) (value : Val) : Except Err Val :=
  if ¬ value.truthy then
    .error (.atlasFieldError s!"Text search for {path} cannot be this value")
  else
    match value with
    | .vStr s => .ok (atlas_regex path (.vStr (re_escape s ++ ".*")))
    | _ => .error (.attributeError "re.escape requires a string value")

/-- `AtlasTransform._endswith`. -/
def atlas_endswith (path : String) (value : Val) : Except Err Val :=
  if ¬ value.truthy then
    .error (.atlasFieldError s!"Text search for {path} cannot be this value")
  else
    match value with
    | .vStr s => .ok (atlas_regex path (.vStr (".*" ++ re_escape s)))
    | _ => .error (.attributeError "re.escape requires a string value")

/-- `AtlasTransform._size`: only `0` with comparator `eq`/`ne` is accepted
(a Python bool passes the `isinstance(value, int)` check, with `False == 0`). -/
def atlas_size (path : String) (value : Val) (oper : String) : Except Err Val :=
  if ¬ value.isinstanceOf .intC then
    .error (.atlasFieldError s!"Size search for {path} must be an int")
  else if value ≠ .vInt 0 ∧ value ≠ .vBool false then
    .error (.notImplementedError s!"Size search for {path} must be 0")
  else if oper ≠ "eq" ∧ oper ≠ "ne" then
    .error (.notImplementedError s!"Size search for {path} must be eq or ne")
  else
    .ok (Val.dict [("$match", Val.dict [(path, Val.dict
      [("$exists", .vBool true),
       ("$" ++ oper, Val.list [.vNull, Val.list [], .vStr ""])])])])

/-- `AtlasTransform._ensure_path_is_indexed`: walk the path prefixes left to
right and fail on the first one the catalog does not confirm indexed. -/
def atlas_ensure_path_is_indexed (idx : AtlasIndex) :
    List String → String → Except Err Unit
  | [], _ => .ok ()
  | element :: rest, start =>
      let sub_path := if start = "" then element else start ++ "." ++ element
      if idx.ensure_keyword_is_indexed sub_path then
        atlas_ensure_path_is_indexed idx rest sub_path
      else
        .error (.atlasIndexFieldError
          s!"The keyword {sub_path} is not indexed in {idx.index}")

/-- One element of `_cast_to_object_id`'s list pass: a string is parsed, an
ObjectId passes through, anything else is a `TypeError`. -/
def atlas_cast_id_element (x : Val) : Except Err Val :=
  match x with
  | .vStr s =>
      if is_valid_object_id s then .ok (Val.vOid s)
      else .error (Err.invalidIdError s!"{s} is not a valid ObjectId")
  | .vOid _ => .ok x
  | _ => .error (Err.typeError "Wrong type for id field")

/-- The element-wise pass of `_cast_to_object_id` over a list. -/
def atlas_cast_id_elements : List Val → Except Err (List Val)
  | [] => .ok []
  | x :: xs =>
      match atlas_cast_id_element x with
      | .error e => .error e
      | .ok y =>
          match atlas_cast_id_elements xs with
          | .error e => .error e
          | .ok ys => .ok (y :: ys)

/-- `AtlasTransform._cast_to_object_id`: parse a string (or each string in a
list) into an ObjectId; ObjectId values pass through; anything else is a
`TypeError`. -/
def atlas_cast_to_object_id (value : Val) : Except Err Val :=
  match value with
  | .vStr s =>
      if is_valid_object_id s then .ok (.vOid s)
      else .error (.invalidIdError s!"{s} is not a valid ObjectId")
  | .vList xs =>
      match atlas_cast_id_elements xs.toList with
      | .error e => .error e
      | .ok l => .ok (Val.list l)
  | .vOid _ => .ok value
  | _ => .error (.typeError "Wrong type for id field")

/-- The Python iteration `for value in values` used by `_all`: lists yield
their elements, strings their characters, dicts their keys; other values are
not iterable. -/
def py_iterate (value : Val) : Except Err (List Val)  :=
  match value with
  | .vList xs => .ok xs.toList
  | .vStr s => .ok (s.toList.map (fun c => Val.vStr (String.mk [c])))
  | .vDict es => .ok (es.toList.map (fun e => Val.vStr e.1))
  | _ => .error (.typeError "value is not iterable")

/-- The `value_to_check` computation of
`AtlasTransform._auto_convert_type_to_keyword`: a list inspects its first
element (IndexError on an empty list) and requires all elements to share its
class or be None; a dict always fails; otherwise the value itself. -/
def atlas_value_to_check (value : Val) : Except Err Val :=
  match value with
  | .vList xs =>
      match xs.toList with
      | [] => .error (.indexError "list index out of range")
      | v0 :: _ =>
          if ¬ xs.toList.all (fun x => x.isinstanceOf v0.pyClass || x = .vNull) then
            .error (.typeError "All elements of a list should have the same type")
          else .ok v0
  | .vDict _ =>
      .error (.typeError "It is not possible to have a dictionary as a value")
  | _ => .ok value

/-- `AtlasTransform._auto_convert_type_to_keyword`: the type-directed
dispatcher — exact-match-eligible types go to `equals`, everything else to
`text`. -/
def atlas_auto_convert_type_to_keyword (idx : AtlasIndex) (path : String)
    (value : Val) : Except Err Val :=
  match atlas_value_to_check value with
  | .error e => .error e
  | .ok value_to_check =>
      if equals_type_supported value_to_check then atlas_equals path value
      else atlas_text idx path value

/-- `AtlasTransform._all`: one dispatched sub-fragment per item, combined
into a `compound.must` fragment. -/
def atlas_all (idx : AtlasIndex) (path : String) (value : Val) : Except Err Val :=
  match py_iterate value with
  | .error e => .error e
  | .ok values =>
      match except_map_vals (fun v => atlas_auto_convert_type_to_keyword idx path v) values with
      | .error e => .error e
      | .ok filters =>
          .ok (Val.dict [("compound", Val.dict [("must", Val.list filters)])])

/-! The fragment merger (`AtlasTransform.merge_embedded_documents`) and the
compile driver (`AtlasTransform.transform`). -/

/-- The in-place update
`already_present_obj["embeddedDocument"]["operator"]["compound"].setdefault(operator, []).extend(content)`
rebuilt functionally: extend the clause list at `oper` (creating it at the end
of the compound dict when absent). -/
def atlas_update_compound (o : Val) (oper : String) (content : ValList) : Except Err Val :=
  match o with
  | .vDict es =>
      match es.lookup "embeddedDocument" with
      | some (.vDict ed) =>
          match ed.lookup "operator" with
          | some (.vDict opd) =>
              match opd.lookup "compound" with
              | some (.vDict comp) =>
                  match comp.lookup oper with
                  | some (.vList xs) =>
                      .ok (.vDict (es.set "embeddedDocument" (.vDict (ed.set "operator"
                        (.vDict (opd.set "compound" (.vDict (comp.set oper
                          (.vList (xs.append content))))))))))
                  | some _ => .error (.attributeError "extend requires a list")
                  | none =>
                      .ok (.vDict (es.set "embeddedDocument" (.vDict (ed.set "operator"
                        (.vDict (opd.set "compound" (.vDict (comp.pushEnd oper
                          (.vList content)))))))))
              | _ => .error (.keyError "compound")
          | _ => .error (.keyError "operator")
      | _ => .error (.keyError "embeddedDocument")
  | _ => .error (.typeError "not a dict")

/-- The scan of `merge_embedded_documents` over the accumulated list: skip
fragments without an `embeddedDocument` key, merge into the first fragment
with the same path (Python breaks after the first hit), report `none` when no
hit was found. -/
def atlas_merge_loop (path_val : Val) (oper : String) (content : ValList) :
    List Val → Except Err (Option (List Val))
  | [] => .ok none
  | o :: os =>
      match o.lookup "embeddedDocument" with
      | none =>
          match atlas_merge_loop path_val oper content os with
          | .error e => .error e
          | .ok none => .ok none
          | .ok (some os2) => .ok (some (o :: os2))
      | some ed =>
          match ed.lookup "path" with
          | some p =>
              if path_val = p then
                match atlas_update_compound o oper content with
                | .error e => .error e
                | .ok o2 => .ok (some (o2 :: os))
              else
                match atlas_merge_loop path_val oper content os with
                | .error e => .error e
                | .ok none => .ok none
                | .ok (some os2) => .ok (some (o :: os2))
          | none => .error (.keyError "path")

/-- `AtlasTransform.merge_embedded_documents`: destructure the new fragment
(the source's asserts), then merge-or-append into the list. -/
def atlas_merge_embedded_documents (obj : Val) (list_of_obj : List Val) :
    Except Err (List Val) :=
  match obj.lookup "embeddedDocument" with
  | none => .error (.assertionError "embeddedDocument in obj")
  | some ed =>
      match ed.lookup "path" with
      | none => .error (.assertionError "path in embeddedDocument")
      | some path_val =>
          match ed.lookup "operator" with
          | none => .error (.assertionError "operator in embeddedDocument")
          | some opv =>
              match opv.lookup "compound" with
              | none => .error (.assertionError "compound in operator")
              | some compv =>
                  match compv with
                  | .vDict (.cons oper content_val .nil) =>
                      match content_val with
                      | .vList content =>
                          match atlas_merge_loop path_val oper content list_of_obj with
                          | .error e => .error e
                          | .ok (some merged) => .ok merged
                          | .ok none => .ok (list_of_obj ++ [obj])
                      | _ => .error (.typeError "compound content is not a list")
                  | _ => .error (.assertionError "len(keys) == 1")

/-- The body of one recognized-keyword iteration of the token loop inside
`AtlasTransform.transform` (everything after the keyword has fixed the path
and the polarity flip has been applied): either a terminal outcome
(`Sum.inl`: the built operator — or none for `size` — with polarity, path and
match-stage fragments) or a signal to keep scanning tokens (`Sum.inr`, with
the possibly extended match-stage fragments, used by `type` and by the
keywords with no builder category). -/
def atlas_keyword_step (idx : AtlasIndex) (kw : String) (rest_empty : Bool)
    (value : Val) (positive : Int) (path : String) (aggs : List Val) :
    Except Err (Sum (Option Val × Int × String × List Val) (List Val)) :=
  if not_converted.contains kw then
    .error (.notImplementedError s!"Keyword {kw} not implemented yet")
  else if size_keywords.contains kw then
    -- size must be the last keyword
    if ¬ rest_empty then
      .error (.notImplementedError s!"Keyword {kw} not implemented yet")
    else
      match atlas_size path value (if positive = 1 then "eq" else "ne") with
      | .error e => .error e
      | .ok frag => .ok (.inl (none, positive, path, aggs ++ [frag]))
  else if exists_keywords.contains kw then
    .ok (.inl (some (atlas_exists path),
          if value = .vBool false then positive * (-1) else positive, path, aggs))
  else if range_keywords.contains kw then
    match atlas_range path value [kw] with
    | .error e => .error e
    | .ok obj => .ok (.inl (some obj, positive, path, aggs))
  else if equals_keywords.contains kw then
    match atlas_equals path value with
    | .error e => .error e
    | .ok obj => .ok (.inl (some obj, positive, path, aggs))
  else if text_keywords.contains kw then
    match atlas_text idx path value with
    | .error e => .error e
    | .ok obj => .ok (.inl (some obj, positive, path, aggs))
  else if regex_keywords.contains kw then
    .ok (.inl (some (atlas_regex path value), positive, path, aggs))
  else if all_keywords.contains kw then
    match atlas_all idx path value with
    | .error e => .error e
    | .ok obj => .ok (.inl (some obj, positive, path, aggs))
  else if startswith_keywords.contains kw then
    match atlas_startswith path value with
    | .error e => .error e
    | .ok obj => .ok (.inl (some obj, positive, path, aggs))
  else if endswith_keywords.contains kw then
    match atlas_endswith path value with
    | .error e => .error e
    | .ok obj => .ok (.inl (some obj, positive, path, aggs))
  else if type_keywords.contains kw then
    if positive = -1 then
      .error (.notImplementedError
        s!"At the moment you cannot have a negative {kw} keyword")
    else
      -- note: no break in the source here, the loop keeps going
      .ok (.inr (aggs ++ [atlas_type path value]))
  else
    -- keywords with no builder category (ne, nin, not, in, is) fall through
    .ok (.inr aggs)

/-- One iteration group of the token loop inside `AtlasTransform.transform`:
`done` holds the already-visited (id-normalized) tokens, `rem` the tokens
still to visit.  Returns the built operator (none for match-stage keywords),
the final polarity, the field path, and the accumulated match-stage
fragments.  The first recognized keyword fixes the path (`join_dot done`) and
a negative keyword flips the polarity before the dispatch in
`atlas_keyword_step`. -/
def atlas_lookup_loop (idx : AtlasIndex) (done rem : List String) (value : Val)
    (positive : Int) (path : String) (aggs : List Val) :
    Except Err (Option Val × Int × String × List Val) :=
  match rem with
  | [] =>
      -- for-else: no keyword produced a break, dispatch on the value type
      match atlas_auto_convert_type_to_keyword idx
          (if path = "" then join_dot done else path) value with
      | .error e => .error e
      | .ok obj => .ok (some obj, positive, if path = "" then join_dot done else path, aggs)
  | kw0 :: rest =>
      match (if id_keywords.contains kw0 then
               match atlas_cast_to_object_id value with
               | .error e => .error e
               | .ok v => .ok ("_id", v)
             else .ok (kw0, value) : Except Err (String × Val)) with
      | .error e => .error e
      | .ok (kw, value) =>
          if ¬ keywords.contains kw then
            atlas_lookup_loop idx (done ++ [kw]) rest value positive path aggs
          else
            match atlas_keyword_step idx kw rest.isEmpty value
                (if negative_keywords.contains kw then positive * (-1) else positive)
                (if path = "" then join_dot done else path) aggs with
            | .error e => .error e
            | .ok (.inl r) => .ok r
            | .ok (.inr aggs2) =>
                atlas_lookup_loop idx (done ++ [kw]) rest value
                  (if negative_keywords.contains kw then positive * (-1) else positive)
                  (if path = "" then join_dot done else path) aggs2

/-- The per-entry body of `AtlasTransform.transform`, iterating the query
items and routing each built fragment. -/
def atlas_transform_items (idx : AtlasIndex) :
    List (String × Val) → List Val → List Val → List Val →
    Except Err (List Val × List Val × List Val)
  | [], affirmative, negative, aggs => .ok (affirmative, negative, aggs)
  | (key, value) :: rest, affirmative, negative, aggs =>
      match atlas_lookup_loop idx [] (py_split_dunder key) value 1 "" aggs with
      | .error e => .error e
      | .ok (none, _, _, aggs) => atlas_transform_items idx rest affirmative negative aggs
      | .ok (some obj, positive, path, aggs) =>
          match (if idx.ensured then atlas_ensure_path_is_indexed idx (py_split_dot path) ""
                 else .ok ()) with
          | .error e => .error e
          | .ok _ =>
              if obj ≠ atlas_convert_to_embedded_document idx (py_split_dot path) obj
                  (positive = 1) "" then
                -- an embedded object: any mustNot is inside the embedded clause
                match atlas_merge_embedded_documents
                    (atlas_convert_to_embedded_document idx (py_split_dot path) obj
                      (positive = 1) "") affirmative with
                | .error e => .error e
                | .ok affirmative2 => atlas_transform_items idx rest affirmative2 negative aggs
              else if positive = 1 then
                atlas_transform_items idx rest
                  (affirmative ++ [atlas_convert_to_embedded_document idx (py_split_dot path) obj
                    (positive = 1) ""]) negative aggs
              else
                atlas_transform_items idx rest affirmative
                  (negative ++ [atlas_convert_to_embedded_document idx (py_split_dot path) obj
                    (positive = 1) ""]) aggs

/-- `AtlasTransform.transform`: compile the query into the triple
(affirmative, negative, other_aggregations). -/
def atlas_transform (idx : AtlasIndex) (query : List (String × Val)) :
    Except Err (List Val × List Val × List Val) :=
  atlas_transform_items idx query [] [] []

/-! Concrete index catalog views used to instantiate theorems. -/

/-- A permissive catalog: not in ensured mode. -/
def plain_index : AtlasIndex :=
  { ensured := false, index := "default", get_type_from_keyword := fun _ => "",
    ensure_keyword_is_indexed := fun _ => true, indexed_fields := [] }

/-- An ensured catalog typing `a` as an embedded document, everything indexed. -/
def emb_index : AtlasIndex :=
  { ensured := true, index := "myindex",
    get_type_from_keyword := fun p => if p = "a" then embedded_document_type else "",
    ensure_keyword_is_indexed := fun _ => true, indexed_fields := [] }

/-- An ensured catalog typing both `a` and `a.b` as embedded documents. -/
def emb2_index : AtlasIndex :=
  { ensured := true, index := "myindex",
    get_type_from_keyword := fun p =>
      if p = "a" ∨ p = "a.b" then embedded_document_type else "",
    ensure_keyword_is_indexed := fun _ => true, indexed_fields := [] }

/-- The shape of a single equality clause, for stating theorems. -/
def equals_fragment (path : String) (v : Val) : Val :=
  Val.dict [("equals", Val.dict [("path", .vStr path), ("value", v)])]

/-- An embedded-document scoping clause never equals its own content: the
wrapper strictly enlarges the value. -/
theorem atlas_embedded_document_ne (path : String) (content : Val) (positive : Bool) :
    atlas_embedded_document path content positive ≠ content := by
  intro h
  have h2 := congrArg sizeOf h
  cases positive <;>
    · simp [atlas_embedded_document, Val.dict, Val.list, ValDict.ofList, ValList.ofList] at h2
      omega

/-- C1: for every leaf fragment built for path `x.y.z` under an ensured
catalog typing `x` and `x.y` as embedded documents and `x.y.z` as a leaf, the
wrapper produces scope(`x`) containing scope(`x.y`) containing the leaf; the
outer scope always uses `must` (polarity `true`) while the caller-supplied
polarity lands only at the innermost scope, so a negative lookup gets its
`mustNot` container only at `x.y`, and an affirmative one gets `must` at both
scopes. -/
theorem C1_wrapper_negation_placement (idx : AtlasIndex) (x y z : String) (leaf : Val)
    (positive : Bool)
    (hxne : x ≠ "")
    (hens : idx.ensured = true)
    (hx : idx.get_type_from_keyword x = embedded_document_type)
    (hxy : idx.get_type_from_keyword (x ++ "." ++ y) = embedded_document_type)
    (hxyz : idx.get_type_from_keyword (x ++ "." ++ y ++ "." ++ z) ≠ embedded_document_type) :
    atlas_convert_to_embedded_document idx [x, y, z] leaf positive "" =
      atlas_embedded_document x
        (atlas_embedded_document (x ++ "." ++ y) leaf positive) true := by
  have hinner :
      atlas_convert_to_embedded_document idx [z] leaf positive (x ++ "." ++ y) = leaf := by
    unfold atlas_convert_to_embedded_document
    have hne2 : x ++ "." ++ y ≠ "" := by
      intro h
      have h2 := congrArg String.length h
      simp [String.length_append, show ("." : String).length = 1 from rfl] at h2
    simp [hens, hxy, hne2, hxyz]
  have hmid :
      atlas_convert_to_embedded_document idx [y, z] leaf positive x =
        atlas_embedded_document (x ++ "." ++ y) leaf positive := by
    unfold atlas_convert_to_embedded_document
    simp [hens, hxy, hxne, hinner]
  have hne : leaf ≠ atlas_embedded_document (x ++ "." ++ y) leaf positive :=
    fun h => atlas_embedded_document_ne _ _ _ h.symm
  unfold atlas_convert_to_embedded_document
  simp [hens, hx, hmid, hne]

/-- Witness for C1: concrete catalog (`a`, `a.b` embedded), a concrete leaf
fragment, negative polarity. -/
theorem C1_wrapper_negation_placement_witness :
    atlas_convert_to_embedded_document emb2_index ["a", "b", "c"]
        (atlas_exists "a.b.c") false "" =
      atlas_embedded_document "a"
        (atlas_embedded_document "a.b" (atlas_exists "a.b.c") false) true :=
  C1_wrapper_negation_placement emb2_index "a" "b" "c" (atlas_exists "a.b.c") false
    (by decide) rfl (by decide) (by decide) (by decide)

/-- C4: the claim says a `type` lookup adds only the match-stage fragment and
nothing to the affirmative or negative lists; the code, however, lacks a
`break` in the `type` branch, so the for-else fallback also builds a text
fragment from the `$type` value and routes it to the affirmative list.  This
theorem evaluates the compiler at `{"price__type": "string"}`: the
affirmative list receives a spurious text fragment alongside the match-stage
fragment in other_aggregations. -/
theorem C4_type_keyword_also_builds_text_fragment :
    atlas_transform plain_index [("price__type", .vStr "string")] =
      .ok ([Val.dict [("text", Val.dict [("query", .vStr "string"), ("path", .vStr "price")])]],
           [],
           [Val.dict [("$match", Val.dict [("price", Val.dict [("$type", .vStr "string")])])]]) := by
  rfl

/-- C5: the claim says an empty list with no operator keyword fails with
InvalidFieldValue ("cannot be empty"); the code instead crashes with an
IndexError at `value[0]` in the type-directed dispatcher, before the (dead)
"cannot be empty" guard in `_equals` can fire.  This theorem evaluates the
compiler at `{"field": []}`. -/
theorem C5_empty_list_raises_index_error :
    atlas_transform plain_index [("field", Val.list [])] =
      .error (.indexError "list index out of range") := by
  rfl
/-- The match-stage fragment `_size` produces, for stating theorems. -/
def size_match_fragment (path oper : String) : Val :=
  Val.dict [("$match", Val.dict [(path, Val.dict
    [("$exists", .vBool true),
     ("$" ++ oper, Val.list [.vNull, Val.list [], .vStr ""])])])]

/-- C6: a `size` lookup rejects non-integer values with an
InvalidFieldValue-kind error (`AtlasFieldError`), integer values other than 0
and comparators other than eq/ne with an UnsupportedOperator-kind error
(`NotImplementedError`); a valid size lookup (value 0, comparator `eq` for
affirmative polarity, `ne` for negative polarity obtained via `__ne__size`)
produces a match-stage fragment placed only in other_aggregations, with the
affirmative and negative lists exactly empty. -/
theorem C6_size_validation_and_routing :
    (∀ (path : String) (value : Val) (oper : String),
        value.isinstanceOf .intC = false →
        atlas_size path value oper =
          .error (.atlasFieldError s!"Size search for {path} must be an int"))
    ∧ (∀ (path : String) (n : Int) (oper : String), n ≠ 0 →
        atlas_size path (.vInt n) oper =
          .error (.notImplementedError s!"Size search for {path} must be 0"))
    ∧ (∀ (path oper : String), oper ≠ "eq" → oper ≠ "ne" →
        atlas_size path (.vInt 0) oper =
          .error (.notImplementedError s!"Size search for {path} must be eq or ne"))
    ∧ (∀ idx : AtlasIndex,
        atlas_transform idx [("f__size", .vInt 0)] =
          .ok ([], [], [size_match_fragment "f" "eq"]))
    ∧ (∀ idx : AtlasIndex,
        atlas_transform idx [("f__ne__size", .vInt 0)] =
          .ok ([], [], [size_match_fragment "f" "ne"])) := by
  refine ⟨?_, ?_, ?_, fun _ => rfl, fun _ => rfl⟩
  · intro path value oper h
    unfold atlas_size
    simp [h]
  · intro path n oper h
    unfold atlas_size
    simp [Val.isinstanceOf, h]
  · intro path oper h1 h2
    unfold atlas_size
    simp [Val.isinstanceOf, h1, h2]

/-- Witness for C6 at concrete inputs. -/
theorem C6_size_validation_and_routing_witness :
    atlas_size "f" (.vStr "x") "eq" =
        .error (.atlasFieldError "Size search for f must be an int")
    ∧ atlas_size "f" (.vInt 2) "eq" =
        .error (.notImplementedError "Size search for f must be 0")
    ∧ atlas_size "f" (.vInt 0) "lt" =
        .error (.notImplementedError "Size search for f must be eq or ne")
    ∧ atlas_transform plain_index [("f__size", .vInt 0)] =
        .ok ([], [], [size_match_fragment "f" "eq"])
    ∧ atlas_transform plain_index [("f__ne__size", .vInt 0)] =
        .ok ([], [], [size_match_fragment "f" "ne"]) :=
  ⟨C6_size_validation_and_routing.1 "f" (.vStr "x") "eq" (by decide),
   C6_size_validation_and_routing.2.1 "f" 2 "eq" (by decide),
   C6_size_validation_and_routing.2.2.1 "f" "lt" (by decide) (by decide),
   C6_size_validation_and_routing.2.2.2.1 plain_index,
   C6_size_validation_and_routing.2.2.2.2 plain_index⟩
/-- Modelled from the spec: the left-to-right prefix walk of §4.7 — the first
path prefix the catalog does not confirm indexed, if any.  Used to state the
refinement theorem for `_ensure_path_is_indexed`. -/
def spec_first_unindexed_prefix (idx : AtlasIndex) : List String → String → Option String
  | [], _ => none
  | element :: rest, start =>
      let sub_path := if start = "" then element else start ++ "." ++ element
      if idx.ensure_keyword_is_indexed sub_path then
        spec_first_unindexed_prefix idx rest sub_path
      else some sub_path

/-- C7: `_ensure_path_is_indexed` walks the path prefixes left to right and
fails with `AtlasIndexFieldError` naming the first unindexed prefix and the
index identifier (refinement against the spec-side prefix walk); at the
compile level, an ensured catalog that does not index the field path makes
the compile fail with that error, while a non-ensured catalog accepts the
same input with no validation and returns the built fragment. -/
theorem C7_ensured_path_validation :
    (∀ (idx : AtlasIndex) (parts : List String) (start : String),
        atlas_ensure_path_is_indexed idx parts start =
          match spec_first_unindexed_prefix idx parts start with
          | none => .ok ()
          | some q => .error (.atlasIndexFieldError
              s!"The keyword {q} is not indexed in {idx.index}"))
    ∧ (∀ (idx : AtlasIndex) (n : Int),
        idx.ensured = true → idx.ensure_keyword_is_indexed "f" = false →
        atlas_transform idx [("f__gt", .vInt n)] =
          .error (.atlasIndexFieldError s!"The keyword f is not indexed in {idx.index}"))
    ∧ (∀ (idx : AtlasIndex) (n : Int),
        idx.ensured = false →
        atlas_transform idx [("f__gt", .vInt n)] =
          .ok ([Val.dict [("range", Val.dict [("path", .vStr "f"), ("gt", .vInt n)])]],
               [], [])) := by
  refine ⟨?_, ?_, ?_⟩
  · intro idx parts
    induction parts with
    | nil => intro start; rfl
    | cons element rest ih =>
        intro start
        unfold atlas_ensure_path_is_indexed spec_first_unindexed_prefix
        by_cases h : idx.ensure_keyword_is_indexed
            (if start = "" then element else start ++ "." ++ element) = true
        · simp only [h, if_true]
          exact ih _
        · simp only [Bool.not_eq_true] at h
          simp [h]
  · intro idx n hens hidx
    have hloop : atlas_lookup_loop idx [] ["f", "gt"] (.vInt n) 1 "" [] =
        .ok (some (Val.dict [("range", Val.dict [("path", .vStr "f"), ("gt", .vInt n)])]),
             1, "f", []) := rfl
    unfold atlas_transform atlas_transform_items
    rw [show py_split_dunder "f__gt" = ["f", "gt"] from rfl, hloop]
    simp only [Except.bind]
    rw [show py_split_dot "f" = ["f"] from rfl]
    unfold atlas_ensure_path_is_indexed
    simp [hens, hidx, Except.bind]
    rfl
  · intro idx n hens
    have hloop : atlas_lookup_loop idx [] ["f", "gt"] (.vInt n) 1 "" [] =
        .ok (some (Val.dict [("range", Val.dict [("path", .vStr "f"), ("gt", .vInt n)])]),
             1, "f", []) := rfl
    unfold atlas_transform atlas_transform_items
    rw [show py_split_dunder "f__gt" = ["f", "gt"] from rfl, hloop]
    simp only [Except.bind]
    rw [show py_split_dot "f" = ["f"] from rfl]
    unfold atlas_convert_to_embedded_document
    simp [hens, Except.bind, atlas_transform_items]

/-- An ensured catalog that confirms no path as indexed. -/
def unindexed_index : AtlasIndex :=
  { ensured := true, index := "myindex", get_type_from_keyword := fun _ => "",
    ensure_keyword_is_indexed := fun _ => false, indexed_fields := [] }

/-- Witness for C7: concrete ensured-but-unindexed catalog fails, the
permissive catalog succeeds on the same lookup. -/
theorem C7_ensured_path_validation_witness :
    atlas_ensure_path_is_indexed unindexed_index ["a", "b"] "" =
        .error (.atlasIndexFieldError "The keyword a is not indexed in myindex")
    ∧ atlas_transform unindexed_index [("f__gt", .vInt 5)] =
        .error (.atlasIndexFieldError "The keyword f is not indexed in myindex")
    ∧ atlas_transform plain_index [("f__gt", .vInt 5)] =
        .ok ([Val.dict [("range", Val.dict [("path", .vStr "f"), ("gt", .vInt 5)])]],
             [], []) :=
  ⟨C7_ensured_path_validation.1 unindexed_index ["a", "b"] "",
   C7_ensured_path_validation.2.1 unindexed_index 5 rfl rfl,
   C7_ensured_path_validation.2.2 plain_index 5 rfl⟩

/-- When the catalog is not in ensured mode the wrapper never changes the
operator. -/
theorem atlas_convert_not_ensured (idx : AtlasIndex) (h : idx.ensured = false) :
    ∀ (parts : List String) (oper : Val) (positive : Bool) (start : String),
      atlas_convert_to_embedded_document idx parts oper positive start = oper := by
  intro parts oper positive start
  cases parts <;> unfold atlas_convert_to_embedded_document <;> simp [h]
/-- C8: an identifier-alias lookup (`id`) with a valid 24-hex-character
string value compiles to an `equals` fragment on the canonical path `_id`
whose value is the parsed ObjectId, not the original string; an unparsable
string fails with the `bson.InvalidId` error, and a value of a type other
than string, ObjectId, or list of those fails with the cast's `TypeError`
(both are the spec's IdentifierCastError kind); in a list, string elements
are parsed and ObjectId elements pass through unchanged. -/
theorem C8_identifier_alias_lookup :
    (∀ (idx : AtlasIndex) (s : String),
        idx.ensured = false → is_valid_object_id s = true →
        atlas_transform idx [("id", .vStr s)] =
          .ok ([equals_fragment "_id" (.vOid s)], [], []))
    ∧ (∀ (idx : AtlasIndex) (s : String),
        is_valid_object_id s = false →
        atlas_transform idx [("id", .vStr s)] =
          .error (.invalidIdError s!"{s} is not a valid ObjectId"))
    ∧ (∀ v : Val,
        v.pyClass ≠ .strC → v.pyClass ≠ .oidC → v.pyClass ≠ .listC →
        atlas_cast_to_object_id v = .error (.typeError "Wrong type for id field"))
    ∧ (∀ n : Int,
        atlas_cast_to_object_id (Val.list [.vInt n]) =
          .error (.typeError "Wrong type for id field"))
    ∧ (∀ (s t : String),
        is_valid_object_id s = true →
        atlas_cast_to_object_id (Val.list [.vStr s, .vOid t]) =
          .ok (Val.list [.vOid s, .vOid t])) := by
  refine ⟨?_, ?_, ?_, ?_, ?_⟩
  · intro idx s hens hv
    have hcast : atlas_cast_to_object_id (.vStr s) = .ok (.vOid s) := by
      unfold atlas_cast_to_object_id
      simp [hv]
    have hloop : atlas_lookup_loop idx [] ["id"] (.vStr s) 1 "" [] =
        .ok (some (equals_fragment "_id" (.vOid s)), 1, "_id", []) := by
      unfold atlas_lookup_loop
      rw [show id_keywords.contains "id" = true from rfl, hcast]
      rfl
    unfold atlas_transform atlas_transform_items
    rw [show py_split_dunder "id" = ["id"] from rfl, hloop]
    simp [hens, atlas_convert_not_ensured idx hens, atlas_transform_items]
  · intro idx s hv
    have hcast : atlas_cast_to_object_id (.vStr s) =
        .error (.invalidIdError s!"{s} is not a valid ObjectId") := by
      unfold atlas_cast_to_object_id
      simp [hv]
    unfold atlas_transform atlas_transform_items
    rw [show py_split_dunder "id" = ["id"] from rfl]
    unfold atlas_lookup_loop
    rw [show id_keywords.contains "id" = true from rfl, hcast]
    rfl
  · intro v h1 h2 h3
    unfold atlas_cast_to_object_id
    cases v <;> simp_all [Val.pyClass]
  · intro n
    rfl
  · intro s t hv
    unfold atlas_cast_to_object_id
    simp [Val.list, ValList.ofList, ValList.toList, atlas_cast_id_elements,
          atlas_cast_id_element, hv]

/-- Witness for C8 at concrete values. -/
theorem C8_identifier_alias_lookup_witness :
    atlas_transform plain_index [("id", .vStr "0123456789abcdef01234567")] =
        .ok ([equals_fragment "_id" (.vOid "0123456789abcdef01234567")], [], [])
    ∧ atlas_transform plain_index [("id", .vStr "nothex")] =
        .error (.invalidIdError "nothex is not a valid ObjectId")
    ∧ atlas_cast_to_object_id (.vInt 3) = .error (.typeError "Wrong type for id field")
    ∧ atlas_cast_to_object_id (Val.list [.vInt 3]) =
        .error (.typeError "Wrong type for id field")
    ∧ atlas_cast_to_object_id
        (Val.list [.vStr "0123456789abcdef01234567", .vOid "ffffffffffffffffffffffff"]) =
        .ok (Val.list [.vOid "0123456789abcdef01234567", .vOid "ffffffffffffffffffffffff"]) :=
  ⟨C8_identifier_alias_lookup.1 plain_index "0123456789abcdef01234567" rfl (by decide),
   C8_identifier_alias_lookup.2.1 plain_index "nothex" (by decide),
   C8_identifier_alias_lookup.2.2.1 (.vInt 3) (by decide) (by decide) (by decide),
   C8_identifier_alias_lookup.2.2.2.1 3,
   C8_identifier_alias_lookup.2.2.2.2 "0123456789abcdef01234567" "ffffffffffffffffffffffff"
     (by decide)⟩
/-- A pattern made only of literal characters and backslash-escapes denotes a
literal string; `none` when a bare regex metacharacter occurs.  Used to state
that escaping makes metacharacters match themselves literally. -/
def literal_of_pattern : List Char → Option (List Char)
  | [] => some []
  | c :: rest =>
      if c = '\\' then
        match rest with
        | [] => none
        | d :: rest2 => (literal_of_pattern rest2).map (fun l => d :: l)
      else if re_special_chars.contains c then none
      else (literal_of_pattern rest).map (fun l => c :: l)

theorem re_escape_literal_chars (cs : List Char) :
    literal_of_pattern ((cs.map re_escape_char).flatten) = some cs := by
  induction cs with
  | nil => rfl
  | cons c cs ih =>
      by_cases h : c ∈ re_special_chars
      · have h2 : re_special_chars.contains c = true := by simpa using h
        rw [show (c :: cs).map re_escape_char = re_escape_char c :: cs.map re_escape_char
              from rfl, List.flatten_cons]
        unfold re_escape_char
        rw [h2]
        show literal_of_pattern ('\\' :: c :: (cs.map re_escape_char).flatten) = _
        unfold literal_of_pattern
        simp [ih]
      · have hc : ¬ c = '\\' := by
          intro e
          subst e
          exact h (by decide)
        have h2 : re_special_chars.contains c = false := by simpa using h
        rw [show (c :: cs).map re_escape_char = re_escape_char c :: cs.map re_escape_char
              from rfl, List.flatten_cons]
        unfold re_escape_char
        rw [h2]
        show literal_of_pattern (c :: (cs.map re_escape_char).flatten) = _
        unfold literal_of_pattern
        simp [hc, h2, ih, h]

/-- C9 (amended): for every non-empty string value, `startswith` produces a
regex fragment whose pattern is the regex-escaped value followed by a trailing
wildcard and `endswith` one with a leading wildcard before the escaped value;
a falsy (empty) value fails with the InvalidFieldValue-kind error; and the
escaped pattern denotes exactly the original string read literally, so regex
metacharacters in the value match only themselves.  (A truthy non-string
value crashes inside `re.escape`, see the counterexample.) -/
theorem C9_escaped_anchored_regex :
    (∀ (path s : String), s ≠ "" →
        atlas_startswith path (.vStr s) =
          .ok (Val.dict [("regex", Val.dict
            [("query", .vStr (re_escape s ++ ".*")), ("path", .vStr path)])]))
    ∧ (∀ (path s : String), s ≠ "" →
        atlas_endswith path (.vStr s) =
          .ok (Val.dict [("regex", Val.dict
            [("query", .vStr (".*" ++ re_escape s)), ("path", .vStr path)])]))
    ∧ (∀ (path : String) (v : Val), v.truthy = false →
        atlas_startswith path v =
            .error (.atlasFieldError s!"Text search for {path} cannot be this value")
          ∧ atlas_endswith path v =
            .error (.atlasFieldError s!"Text search for {path} cannot be this value"))
    ∧ (∀ s : String, literal_of_pattern (re_escape s).toList = some s.toList) := by
  refine ⟨?_, ?_, ?_, ?_⟩
  · intro path s h
    unfold atlas_startswith
    simp [Val.truthy, h, atlas_regex]
  · intro path s h
    unfold atlas_endswith
    simp [Val.truthy, h, atlas_regex]
  · intro path v h
    constructor <;> [unfold atlas_startswith; unfold atlas_endswith] <;> simp [h]
  · intro s
    exact re_escape_literal_chars s.toList

/-- C9 counterexample to the claim as stated: the integer value `5` is
non-empty (truthy), yet `startswith` does not produce a regex fragment — the
code fails inside `re.escape`, which requires a string. -/
theorem C9_escaped_anchored_regex_counterexample :
    atlas_startswith "f" (.vInt 5) =
      .error (.attributeError "re.escape requires a string value") := by
  rfl

/-- Witness for C9 at the spec's own example value `"a.b*c"`. -/
theorem C9_escaped_anchored_regex_witness :
    atlas_startswith "f" (.vStr "a.b*c") =
        .ok (Val.dict [("regex", Val.dict
          [("query", .vStr "a\\.b\\*c.*"), ("path", .vStr "f")])])
    ∧ atlas_endswith "f" (.vStr "a.b*c") =
        .ok (Val.dict [("regex", Val.dict
          [("query", .vStr ".*a\\.b\\*c"), ("path", .vStr "f")])])
    ∧ atlas_startswith "f" (.vStr "") =
        .error (.atlasFieldError "Text search for f cannot be this value")
    ∧ literal_of_pattern ("a\\.b\\*c".toList) = some ("a.b*c".toList) :=
  ⟨C9_escaped_anchored_regex.1 "f" "a.b*c" (by decide),
   C9_escaped_anchored_regex.2.1 "f" "a.b*c" (by decide),
   (C9_escaped_anchored_regex.2.2.1 "f" (.vStr "") (by decide)).1,
   C9_escaped_anchored_regex.2.2.2 "a.b*c"⟩
theorem Val.isinstanceOf_self (x : Val) : x.isinstanceOf x.pyClass = true := by
  cases x <;> rfl

/-- Scanning the accumulated list finds no hit when no element is a scoping
fragment. -/
theorem atlas_merge_loop_no_hit (path_val : Val) (oper : String) (content : ValList)
    (objs : List Val) (h : ∀ o ∈ objs, o.lookup "embeddedDocument" = none) :
    atlas_merge_loop path_val oper content objs = .ok none := by
  induction objs with
  | nil => rfl
  | cons o os ih =>
      have ho := h o (by simp)
      unfold atlas_merge_loop
      rw [ho, ih (fun x hx => h x (by simp [hx]))]

/-- Merging into a scope with the same path and the same container extends
the container's clause list. -/
theorem atlas_merge_hit_same (p : String) (c1 c2 : Val) (pos : Bool) (os : List Val) :
    atlas_merge_embedded_documents (atlas_embedded_document p c2 pos)
        (atlas_embedded_document p c1 pos :: os) =
      .ok (Val.dict [("embeddedDocument", Val.dict
        [("path", .vStr p),
         ("operator", Val.dict [("compound", Val.dict
           [(if pos then "must" else "mustNot", Val.list [c1, c2])])])])] :: os) := by
  cases pos <;>
    simp [atlas_merge_embedded_documents, atlas_embedded_document, Val.dict, Val.list,
      ValDict.ofList, ValList.ofList, Val.lookup, ValDict.lookup, atlas_merge_loop,
      atlas_update_compound, ValDict.set, ValDict.pushEnd, ValList.append]

/-- Merging a `mustNot` scope into a `must` scope on the same path creates
the absent `mustNot` container at the end of the compound dict. -/
theorem atlas_merge_hit_diff (p : String) (c1 c2 : Val) (os : List Val) :
    atlas_merge_embedded_documents (atlas_embedded_document p c2 false)
        (atlas_embedded_document p c1 true :: os) =
      .ok (Val.dict [("embeddedDocument", Val.dict
        [("path", .vStr p),
         ("operator", Val.dict [("compound", Val.dict
           [("must", Val.list [c1]), ("mustNot", Val.list [c2])])])])] :: os) := by
  simp [atlas_merge_embedded_documents, atlas_embedded_document, Val.dict, Val.list,
    ValDict.ofList, ValList.ofList, Val.lookup, ValDict.lookup, atlas_merge_loop,
    atlas_update_compound, ValDict.set, ValDict.pushEnd, ValList.append]

/-- Under `emb_index`, a two-segment path `a.x` receives exactly one wrap at
`a`, carrying the caller polarity. -/
theorem atlas_convert_ax (leaf : Val) (pos : Bool) :
    atlas_convert_to_embedded_document emb_index ["a", "x"] leaf pos "" =
      atlas_embedded_document "a" leaf pos := by
  show atlas_embedded_document "a" leaf (if leaf ≠ leaf then true else pos) =
    atlas_embedded_document "a" leaf pos
  simp

theorem atlas_convert_ay (leaf : Val) (pos : Bool) :
    atlas_convert_to_embedded_document emb_index ["a", "y"] leaf pos "" =
      atlas_embedded_document "a" leaf pos := by
  show atlas_embedded_document "a" leaf (if leaf ≠ leaf then true else pos) =
    atlas_embedded_document "a" leaf pos
  simp

/-- A freshly wrapped fragment merged against a list containing no scoping
fragments is appended unchanged. -/
theorem atlas_merge_append_no_hit (p : String) (c : Val) (pos : Bool) (objs : List Val)
    (h : ∀ o ∈ objs, o.lookup "embeddedDocument" = none) :
    atlas_merge_embedded_documents (atlas_embedded_document p c pos) objs =
      .ok (objs ++ [atlas_embedded_document p c pos]) := by
  unfold atlas_merge_embedded_documents
  simp [atlas_embedded_document, Val.dict, Val.list, ValDict.ofList, ValList.ofList,
    Val.lookup, ValDict.lookup, atlas_merge_loop_no_hit _ _ _ objs h]

/-- C2: two lookups wrapped for the same nested scoping path produce exactly
one scoping fragment whose inner clause list holds both conditions — same
polarity extends the existing must list, mixed polarity creates the absent
mustNot container — and a wrapped fragment compared only against non-scoping
fragments never merges and is appended instead. -/
theorem C2_merge_same_nested_path :
    (∀ n m : Int,
      atlas_transform emb_index [("a__x", .vInt n), ("a__y", .vInt m)] =
        .ok ([Val.dict [("embeddedDocument", Val.dict
          [("path", .vStr "a"),
           ("operator", Val.dict [("compound", Val.dict
             [("must", Val.list [equals_fragment "a.x" (.vInt n),
                                 equals_fragment "a.y" (.vInt m)])])])])]],
             [], []))
    ∧ (∀ n m : Int,
      atlas_transform emb_index [("a__x", .vInt n), ("a__y__ne", .vInt m)] =
        .ok ([Val.dict [("embeddedDocument", Val.dict
          [("path", .vStr "a"),
           ("operator", Val.dict [("compound", Val.dict
             [("must", Val.list [equals_fragment "a.x" (.vInt n)]),
              ("mustNot", Val.list [equals_fragment "a.y" (.vInt m)])])])])]],
             [], []))
    ∧ (∀ (p : String) (c : Val) (pos : Bool) (objs : List Val),
        (∀ o ∈ objs, o.lookup "embeddedDocument" = none) →
        atlas_merge_embedded_documents (atlas_embedded_document p c pos) objs =
          .ok (objs ++ [atlas_embedded_document p c pos])) := by
  have hnohit := atlas_merge_append_no_hit
  refine ⟨?_, ?_, hnohit⟩
  · intro n m
    have hne1 : equals_fragment "a.x" (.vInt n) ≠
        atlas_embedded_document "a" (equals_fragment "a.x" (.vInt n)) true :=
      fun h => atlas_embedded_document_ne _ _ _ h.symm
    have hne2 : equals_fragment "a.y" (.vInt m) ≠
        atlas_embedded_document "a" (equals_fragment "a.y" (.vInt m)) true :=
      fun h => atlas_embedded_document_ne _ _ _ h.symm
    have hm1 := hnohit "a" (equals_fragment "a.x" (.vInt n)) true [] (by simp)
    have hm2 := atlas_merge_hit_same "a" (equals_fragment "a.x" (.vInt n))
      (equals_fragment "a.y" (.vInt m)) true []
    unfold atlas_transform atlas_transform_items
    rw [show py_split_dunder "a__x" = ["a", "x"] from rfl]
    rw [show atlas_lookup_loop emb_index [] ["a", "x"] (.vInt n) 1 "" [] =
        .ok (some (equals_fragment "a.x" (.vInt n)), 1, "a.x", []) from rfl]
    simp only [show emb_index.ensured = true from rfl, if_true,
      show atlas_ensure_path_is_indexed emb_index (py_split_dot "a.x") "" = .ok () from rfl,
      show py_split_dot "a.x" = ["a", "x"] from rfl]
    rw [atlas_convert_ax]
    simp only [hne1, ne_eq, not_false_eq_true, if_true, hm1]
    unfold atlas_transform_items
    rw [show py_split_dunder "a__y" = ["a", "y"] from rfl]
    rw [show atlas_lookup_loop emb_index [] ["a", "y"] (.vInt m) 1 "" [] =
        .ok (some (equals_fragment "a.y" (.vInt m)), 1, "a.y", []) from rfl]
    simp only [show emb_index.ensured = true from rfl, if_true,
      show atlas_ensure_path_is_indexed emb_index (py_split_dot "a.y") "" = .ok () from rfl,
      show py_split_dot "a.y" = ["a", "y"] from rfl]
    rw [atlas_convert_ay]
    simp only [hne2, ne_eq, not_false_eq_true, if_true, hm2]
    rfl
  · intro n m
    have hne1 : equals_fragment "a.x" (.vInt n) ≠
        atlas_embedded_document "a" (equals_fragment "a.x" (.vInt n)) true :=
      fun h => atlas_embedded_document_ne _ _ _ h.symm
    have hne2 : equals_fragment "a.y" (.vInt m) ≠
        atlas_embedded_document "a" (equals_fragment "a.y" (.vInt m)) false :=
      fun h => atlas_embedded_document_ne _ _ _ h.symm
    have hm1 := hnohit "a" (equals_fragment "a.x" (.vInt n)) true [] (by simp)
    have hm2 := atlas_merge_hit_diff "a" (equals_fragment "a.x" (.vInt n))
      (equals_fragment "a.y" (.vInt m)) []
    unfold atlas_transform atlas_transform_items
    rw [show py_split_dunder "a__x" = ["a", "x"] from rfl]
    rw [show atlas_lookup_loop emb_index [] ["a", "x"] (.vInt n) 1 "" [] =
        .ok (some (equals_fragment "a.x" (.vInt n)), 1, "a.x", []) from rfl]
    simp only [show emb_index.ensured = true from rfl, if_true,
      show atlas_ensure_path_is_indexed emb_index (py_split_dot "a.x") "" = .ok () from rfl,
      show py_split_dot "a.x" = ["a", "x"] from rfl]
    rw [atlas_convert_ax]
    simp only [hne1, ne_eq, not_false_eq_true, if_true, hm1]
    unfold atlas_transform_items
    rw [show py_split_dunder "a__y__ne" = ["a", "y", "ne"] from rfl]
    rw [show atlas_lookup_loop emb_index [] ["a", "y", "ne"] (.vInt m) 1 "" [] =
        .ok (some (equals_fragment "a.y" (.vInt m)), -1, "a.y", []) from rfl]
    simp only [show emb_index.ensured = true from rfl, if_true,
      show atlas_ensure_path_is_indexed emb_index (py_split_dot "a.y") "" = .ok () from rfl,
      show py_split_dot "a.y" = ["a", "y"] from rfl]
    simp only [show (decide ((-1 : Int) = 1)) = false from rfl,
      show (((-1 : Int) = 1)) = False from by simp, if_false]
    rw [atlas_convert_ay]
    simp only [hne2, ne_eq, not_false_eq_true, if_true, hm2]
    rfl

/-- Witness for C2: the no-merge-with-non-scoping-fragment conjunct at a
concrete list, plus both compile-level shapes at concrete values. -/
theorem C2_merge_same_nested_path_witness :
    atlas_merge_embedded_documents (atlas_embedded_document "a" (atlas_exists "q") false)
        [equals_fragment "b" (.vInt 1)] =
      .ok ([equals_fragment "b" (.vInt 1)] ++
           [atlas_embedded_document "a" (atlas_exists "q") false])
    ∧ atlas_transform emb_index [("a__x", .vInt 1), ("a__y", .vInt 2)] =
        .ok ([Val.dict [("embeddedDocument", Val.dict
          [("path", .vStr "a"),
           ("operator", Val.dict [("compound", Val.dict
             [("must", Val.list [equals_fragment "a.x" (.vInt 1),
                                 equals_fragment "a.y" (.vInt 2)])])])])]],
             [], []) :=
  ⟨C2_merge_same_nested_path.2.2 "a" (atlas_exists "q") false
     [equals_fragment "b" (.vInt 1)] (by decide),
   C2_merge_same_nested_path.1 1 2⟩
/-- A fragment is a non-scoping fragment when it has no `embeddedDocument`
key. -/
def no_embedded_key (v : Val) : Prop := v.lookup "embeddedDocument" = none

theorem no_embedded_key_single_equals {path : String} {v r : Val}
    (h : atlas_single_equals path v = .ok r) : no_embedded_key r := by
  unfold atlas_single_equals at h
  split at h
  · simp at h
  · cases h
    rfl

theorem no_embedded_key_equals {path : String} {v r : Val}
    (h : atlas_equals path v = .ok r) : no_embedded_key r := by
  unfold atlas_equals at h
  split at h
  · split at h
    · simp at h
    · split at h
      · simp at h
      · cases h
        rfl
  · exact no_embedded_key_single_equals h

theorem no_embedded_key_text {idx : AtlasIndex} {path : String} {v r : Val}
    (h : atlas_text idx path v = .ok r) : no_embedded_key r := by
  unfold atlas_text at h
  split at h
  · simp at h
  · cases h
    rfl

theorem no_embedded_key_range {path : String} {v r : Val} {kws : List String}
    (h : atlas_range path v kws = .ok r) : no_embedded_key r := by
  unfold atlas_range at h
  split at h
  · simp at h
  · split at h <;> first
      | (simp at h; done)
      | (cases h
         try subst h
         rfl)

theorem no_embedded_key_regex (path : String) (v : Val) :
    no_embedded_key (atlas_regex path v) := by
  rfl

theorem no_embedded_key_startswith {path : String} {v r : Val}
    (h : atlas_startswith path v = .ok r) : no_embedded_key r := by
  unfold atlas_startswith at h
  split at h
  · simp at h
  · split at h
    · cases h
      rfl
    · simp at h

theorem no_embedded_key_endswith {path : String} {v r : Val}
    (h : atlas_endswith path v = .ok r) : no_embedded_key r := by
  unfold atlas_endswith at h
  split at h
  · simp at h
  · split at h
    · cases h
      rfl
    · simp at h

theorem no_embedded_key_all {idx : AtlasIndex} {path : String} {v r : Val}
    (h : atlas_all idx path v = .ok r) : no_embedded_key r := by
  unfold atlas_all at h
  split at h
  · simp at h
  · split at h
    · simp at h
    · cases h
      rfl

theorem no_embedded_key_auto_convert {idx : AtlasIndex} {path : String} {v r : Val}
    (h : atlas_auto_convert_type_to_keyword idx path v = .ok r) : no_embedded_key r := by
  unfold atlas_auto_convert_type_to_keyword at h
  split at h
  · simp at h
  · split at h
    · exact no_embedded_key_equals h
    · exact no_embedded_key_text h

theorem no_embedded_key_exists (path : String) :
    no_embedded_key (atlas_exists path) := by
  rfl

/-- Shape predicate for keyword-step results: any built operator is a
non-scoping fragment. -/
def step_result_no_embedded :
    Except Err (Sum (Option Val × Int × String × List Val) (List Val)) → Prop
  | .ok (.inl (some obj, _, _, _)) => no_embedded_key obj
  | _ => True

theorem step_result_no_embedded_holds (idx : AtlasIndex) (kw : String)
    (rest_empty : Bool) (value : Val) (positive : Int) (path : String)
    (aggs : List Val) :
    step_result_no_embedded (atlas_keyword_step idx kw rest_empty value positive path aggs) := by
  unfold atlas_keyword_step
  by_cases h1 : not_converted.contains kw = true
  · rw [if_pos h1]; trivial
  rw [if_neg h1]
  by_cases h2 : size_keywords.contains kw = true
  · rw [if_pos h2]
    by_cases h3 : ¬ rest_empty = true
    · rw [if_pos h3]; trivial
    · rw [if_neg h3]
      cases hb : atlas_size path value (if positive = 1 then "eq" else "ne") with
      | error e => trivial
      | ok frag => trivial
  rw [if_neg h2]
  by_cases h4 : exists_keywords.contains kw = true
  · rw [if_pos h4]; exact no_embedded_key_exists _
  rw [if_neg h4]
  by_cases h5 : range_keywords.contains kw = true
  · rw [if_pos h5]
    cases hb : atlas_range path value [kw] with
    | error e => trivial
    | ok obj => exact no_embedded_key_range hb
  rw [if_neg h5]
  by_cases h6 : equals_keywords.contains kw = true
  · rw [if_pos h6]
    cases hb : atlas_equals path value with
    | error e => trivial
    | ok obj => exact no_embedded_key_equals hb
  rw [if_neg h6]
  by_cases h7 : text_keywords.contains kw = true
  · rw [if_pos h7]
    cases hb : atlas_text idx path value with
    | error e => trivial
    | ok obj => exact no_embedded_key_text hb
  rw [if_neg h7]
  by_cases h8 : regex_keywords.contains kw = true
  · rw [if_pos h8]; exact no_embedded_key_regex _ _
  rw [if_neg h8]
  by_cases h9 : all_keywords.contains kw = true
  · rw [if_pos h9]
    cases hb : atlas_all idx path value with
    | error e => trivial
    | ok obj => exact no_embedded_key_all hb
  rw [if_neg h9]
  by_cases h10 : startswith_keywords.contains kw = true
  · rw [if_pos h10]
    cases hb : atlas_startswith path value with
    | error e => trivial
    | ok obj => exact no_embedded_key_startswith hb
  rw [if_neg h10]
  by_cases h11 : endswith_keywords.contains kw = true
  · rw [if_pos h11]
    cases hb : atlas_endswith path value with
    | error e => trivial
    | ok obj => exact no_embedded_key_endswith hb
  rw [if_neg h11]
  by_cases h12 : type_keywords.contains kw = true
  · rw [if_pos h12]
    by_cases h13 : positive = -1
    · rw [if_pos h13]; trivial
    · rw [if_neg h13]; trivial
  rw [if_neg h12]
  trivial

theorem step_ok_inl_no_embedded {idx : AtlasIndex} {kw : String} {re2 : Bool}
    {value : Val} {positive : Int} {path : String} {aggs : List Val}
    {r : Option Val × Int × String × List Val}
    (h : atlas_keyword_step idx kw re2 value positive path aggs = .ok (.inl r)) :
    (match r with
     | (some obj, _, _, _) => no_embedded_key obj
     | _ => True) := by
  have hs := step_result_no_embedded_holds idx kw re2 value positive path aggs
  rw [h] at hs
  obtain ⟨objOpt, p2, pa2, ag2⟩ := r
  cases objOpt
  · trivial
  · exact hs

/-- Shape predicate for token-loop results: any returned operator is a
non-scoping fragment. -/
def loop_result_no_embedded : Except Err (Option Val × Int × String × List Val) → Prop
  | .ok (some obj, _, _, _) => no_embedded_key obj
  | _ => True

theorem loop_result_no_embedded_holds :
    ∀ (rem : List String) (idx : AtlasIndex) (done : List String) (value : Val)
      (positive : Int) (path : String) (aggs : List Val),
      loop_result_no_embedded (atlas_lookup_loop idx done rem value positive path aggs) := by
  intro rem
  induction rem with
  | nil =>
      intro idx done value positive path aggs
      unfold atlas_lookup_loop
      split
      · trivial
      · exact no_embedded_key_auto_convert (by assumption)
  | cons kw0 rest ih =>
      intro idx done value positive path aggs
      unfold atlas_lookup_loop
      repeat' split
      all_goals first
        | trivial
        | exact ih _ _ _ _ _ _
        | (rename_i r heq
           obtain ⟨objOpt, p2, pa2, ag2⟩ := r
           cases objOpt
           · trivial
           · exact step_ok_inl_no_embedded heq)

/-- Every operator the token loop hands back is a non-scoping fragment. -/
theorem no_embedded_key_lookup_loop {idx : AtlasIndex} {done rem : List String}
    {value : Val} {positive : Int} {path : String} {aggs : List Val}
    {obj : Val} {pos2 : Int} {path2 : String} {aggs2 : List Val}
    (h : atlas_lookup_loop idx done rem value positive path aggs =
      .ok (some obj, pos2, path2, aggs2)) :
    no_embedded_key obj := by
  have hp := loop_result_no_embedded_holds rem idx done value positive path aggs
  rw [h] at hp
  exact hp

/-- The negative output list only ever receives non-scoping fragments. -/
theorem transform_items_negative_no_embedded :
    ∀ (query : List (String × Val)) (idx : AtlasIndex)
      (aff neg aggs : List Val) {aff2 neg2 aggs2 : List Val},
      (∀ o ∈ neg, no_embedded_key o) →
      atlas_transform_items idx query aff neg aggs = .ok (aff2, neg2, aggs2) →
      ∀ o ∈ neg2, no_embedded_key o := by
  intro query
  induction query with
  | nil =>
      intro idx aff neg aggs aff2 neg2 aggs2 hneg h
      simp only [atlas_transform_items, Except.ok.injEq, Prod.mk.injEq] at h
      obtain ⟨-, h2, -⟩ := h
      subst h2
      exact hneg
  | cons kv rest ih =>
      intro idx aff neg aggs aff2 neg2 aggs2 hneg h
      obtain ⟨key, value⟩ := kv
      unfold atlas_transform_items at h
      split at h
      · simp at h
      · exact ih _ _ _ _ hneg h
      · rename_i obj positive path aggs3 hloop
        split at h
        · simp at h
        · split at h
          · split at h
            · simp at h
            · exact ih _ _ _ _ hneg h
          · rename_i hnotne
            split at h
            · exact ih _ _ _ _ hneg h
            · refine ih _ _ _ _ ?_ h
              intro o ho
              rcases List.mem_append.mp ho with h1 | h1
              · exact hneg o h1
              · have hoc := List.mem_singleton.mp h1
                subst hoc
                have hobj := no_embedded_key_lookup_loop hloop
                have hceq := not_not.mp hnotne
                rw [← hceq]
                exact hobj

/-- The compile-level invariant: the negative list of a successful compile
never contains an embeddedDocument scoping fragment. -/
theorem atlas_transform_negative_no_embedded (idx : AtlasIndex)
    (query : List (String × Val)) {aff neg aggs : List Val}
    (h : atlas_transform idx query = .ok (aff, neg, aggs)) :
    ∀ o ∈ neg, o.lookup "embeddedDocument" = none :=
  transform_items_negative_no_embedded query idx [] [] [] (by simp) h

/-- C10: a fragment that receives an embedded-document scoping wrap is routed
(by merge or append) into the affirmative list regardless of the lookup's
polarity — demonstrated by a negative-polarity wrapped lookup whose compiled
output puts the mustNot-containing scope in the affirmative list — and the
negative list of any successful compile never contains an embeddedDocument
scoping fragment. -/
theorem C10_wrapped_fragments_route_affirmative :
    (∀ (idx : AtlasIndex) (query : List (String × Val)) (aff neg aggs : List Val),
        atlas_transform idx query = .ok (aff, neg, aggs) →
        ∀ o ∈ neg, o.lookup "embeddedDocument" = none)
    ∧ (∀ n : Int,
        atlas_transform emb_index [("a__x__ne", .vInt n)] =
          .ok ([atlas_embedded_document "a" (equals_fragment "a.x" (.vInt n)) false],
               [], [])) := by
  constructor
  · intro idx query aff neg aggs h
    exact atlas_transform_negative_no_embedded idx query h
  · intro n
    have hne : equals_fragment "a.x" (.vInt n) ≠
        atlas_embedded_document "a" (equals_fragment "a.x" (.vInt n)) false :=
      fun h => atlas_embedded_document_ne _ _ _ h.symm
    have hm := atlas_merge_append_no_hit "a" (equals_fragment "a.x" (.vInt n)) false []
      (by simp)
    unfold atlas_transform atlas_transform_items
    rw [show py_split_dunder "a__x__ne" = ["a", "x", "ne"] from rfl]
    rw [show atlas_lookup_loop emb_index [] ["a", "x", "ne"] (.vInt n) 1 "" [] =
        .ok (some (equals_fragment "a.x" (.vInt n)), -1, "a.x", []) from rfl]
    simp only [show emb_index.ensured = true from rfl, if_true,
      show atlas_ensure_path_is_indexed emb_index (py_split_dot "a.x") "" = .ok () from rfl,
      show py_split_dot "a.x" = ["a", "x"] from rfl]
    simp only [show (decide ((-1 : Int) = 1)) = false from rfl,
      show (((-1 : Int) = 1)) = False from by simp, if_false]
    rw [atlas_convert_ax]
    simp only [hne, ne_eq, not_false_eq_true, if_true, hm]
    rfl

/-- Witness for C10: a non-wrapped negative lookup lands in the negative list
and carries no scoping key; a wrapped negative lookup lands in the
affirmative list. -/
theorem C10_wrapped_fragments_route_affirmative_witness :
    (∀ o ∈ [equals_fragment "f" (.vInt 5)], o.lookup "embeddedDocument" = none)
    ∧ atlas_transform emb_index [("a__x__ne", .vInt 5)] =
        .ok ([atlas_embedded_document "a" (equals_fragment "a.x" (.vInt 5)) false],
             [], []) :=
  ⟨C10_wrapped_fragments_route_affirmative.1 plain_index [("f__ne", .vInt 5)]
     [] [equals_fragment "f" (.vInt 5)] [] rfl,
   C10_wrapped_fragments_route_affirmative.2 5⟩
